/-
Verification of the telemetry core of the EduFlow API backend
(structured category logger with sensitive-data redaction, HTTP
instrumentation middleware, and per-IP login-attempt throttle).

Shallow embedding of:
  * src/utils/logger.js        (redaction engine + category logger)
  * middlewares/logging.js     (HTTP instrumentation middleware)
  * src/routes/public.js       (login attempt guard + /login handler)
-/
import Mathlib

set_option maxHeartbeats 4000000

namespace EduFlow

/-! ## JavaScript value model

A small model of the JavaScript values that flow through the logger:
`null`, `undefined`, booleans, numbers (modelled as integers — no claim
here depends on float semantics), strings, arrays and plain objects
(ordered key/value lists; JS objects have unique keys). -/

inductive JSValue where
  | null
  | undef
  | bool (b : Bool)
  | num (n : Int)
  | str (s : String)
  | arr (xs : List JSValue)
  | obj (entries : List (String × JSValue))

/-- JS truthiness: `null`, `undefined`, `false`, `0`, `""` are falsy;
every array or object (including `{}` and `[]`) is truthy. -/
def jsTruthy : JSValue → Bool
  | .null => false
  | .undef => false
  | .bool b => b
  | .num n => n != 0
  | .str s => s != ""
  | .arr _ => true
  | .obj _ => true

/-- `typeof v === 'object'` for a truthy `v`: arrays and plain objects
(`null` is also `'object'` in JS, but it is falsy and the source tests
truthiness first, so it never reaches this check in `sanitizeSensitiveData`). -/
def jsTypeofObject : JSValue → Bool
  | .arr _ => true
  | .obj _ => true
  | .null => true
  | _ => false

/-- The entry list of the shallow copy `{...data}`: for a plain object the
same entries; for an array, index keys `"0"`, `"1"`, … (JS spread of an
array into an object literal); primitives have no own enumerable entries
of interest here. -/
def spreadToObj : JSValue → List (String × JSValue)
  | .obj l => l
  | .arr xs => xs.enum.map (fun p => (toString p.1, p.2))
  | _ => []

/-- `Object.keys` of a value (top level): object keys, array indices,
string indices; primitives have none. -/
def jsKeys : JSValue → List String
  | .obj l => l.map Prod.fst
  | .arr xs => xs.enum.map (fun p => toString p.1)
  | .str s => (s.data.enum.map (fun p => toString p.1))
  | _ => []

/-- `sub` occurs as a contiguous sublist of `l` (JS `String.includes`
on the underlying characters). -/
def listIncludes (sub l : List Char) : Bool :=
  l.tails.any (fun t => sub.isPrefixOf t)

/-- JS `s.includes(sub)`: case-sensitive substring containment. -/
def jsIncludes (s sub : String) : Bool :=
  listIncludes sub.data s.data

/-- JS `s.toLowerCase()` on the ASCII keys that occur in contexts:
character-wise lowercasing. -/
def jsToLower (s : String) : String :=
  String.mk (s.data.map Char.toLower)

/-! ## Redaction engine (src/utils/logger.js, `sanitizeSensitiveData`) -/

/-- The fixed `sensitiveKeys` fragment list from `sanitizeSensitiveData`.
Note `creditCard` keeps its capital `C` exactly as in the source. -/
def sensitiveKeys : List String :=
  ["password", "token", "authorization", "secret", "api_key",
   "creditCard", "cpf", "phone"]

/-- `sensitiveKeys.some((sensitive) => lowerKey.includes(sensitive))`:
the key's lowercase form contains one of the fragments (case-sensitive
`includes`, so the `creditCard` fragment can never match a lowercased key). -/
def isSensitiveKey (key : String) : Bool :=
  sensitiveKeys.any (fun sensitive => jsIncludes (jsToLower key) sensitive)

/-- The literal redaction marker. -/
def REDACTED : String := "***REDACTED***"

/-- JS assignment `sanitized[key] = v` on an existing key: replace the
value at the first occurrence of `key`, preserving entry order. -/
def setVal (key : String) (v : JSValue) : List (String × JSValue) → List (String × JSValue)
  | [] => []
  | (k, w) :: rest => if k = key then (k, v) :: rest else (k, w) :: setVal key v rest

/-- `Object.keys(sanitized).forEach((key) => { if (...) sanitized[key] = '***REDACTED***' })`
applied to the shallow copy: fold the assignments over the key list. -/
def sanitizeEntries (entries : List (String × JSValue)) : List (String × JSValue) :=
  (entries.map Prod.fst).foldl
    (fun acc key => if isSensitiveKey key then setVal key (JSValue.str REDACTED) acc else acc)
    entries

/-- `sanitizeSensitiveData` from src/utils/logger.js lines 52–78:
falsy inputs are returned unchanged; `typeof data === 'object'` inputs are
shallow-copied and each top-level key whose lowercase form includes a
sensitive fragment has its value replaced by the marker; every other input
is returned unchanged. -/
def sanitizeSensitiveData (data : JSValue) : JSValue :=
  if jsTruthy data = false then data
  else if jsTypeofObject data then JSValue.obj (sanitizeEntries (spreadToObj data))
  else data

/-- A value is a mapping in the sense of `typeof data === 'object'` on
truthy values: a JS array or plain object.  (`null` has `typeof 'object'`
too, but it is falsy and `sanitizeSensitiveData` short-circuits on
falsiness first, so classifying it as non-mapping matches the code path
it takes.) -/
def isMapping : JSValue → Bool
  | .obj _ => true
  | .arr _ => true
  | _ => false

/-! ## Login attempt guard (src/routes/public.js)

`failedLoginAttempts` is a JS `Map` from source IP to
`{ count, lastAttempt }`; we model it as an ordered association list with
unique keys (a JS `Map` has unique keys).  Time is the value of
`Date.now()`, milliseconds since the Unix epoch. -/

/-- One `failedLoginAttempts` record: `{ count, lastAttempt }`. -/
structure AttemptRecord where
  count : Nat
  lastAttempt : Nat
deriving DecidableEq

/-- The `failedLoginAttempts` map. -/
abbrev AttemptMap : Type := List (String × AttemptRecord)

/-- `failedLoginAttempts.get(ip)`. -/
def mapGet (m : AttemptMap) (ip : String) : Option AttemptRecord :=
  match m with
  | [] => none
  | (k, v) :: rest => if k = ip then some v else mapGet rest ip

/-- `failedLoginAttempts.set(ip, v)`: replace in place, else append. -/
def mapSet (m : AttemptMap) (ip : String) (v : AttemptRecord) : AttemptMap :=
  match m with
  | [] => [(ip, v)]
  | (k, w) :: rest => if k = ip then (k, v) :: rest else (k, w) :: mapSet rest ip v

/-- `failedLoginAttempts.delete(ip)`. -/
def mapDelete (m : AttemptMap) (ip : String) : AttemptMap :=
  match m with
  | [] => []
  | (k, w) :: rest => if k = ip then rest else (k, w) :: mapDelete rest ip

/-- `MAX_LOGIN_ATTEMPTS = 5`. -/
def MAX_LOGIN_ATTEMPTS : Nat := 5

/-- `LOGIN_BLOCK_TIME = 5 * 60 * 1000` ms. -/
def LOGIN_BLOCK_TIME : Nat := 5 * 60 * 1000

/-- `Math.ceil(ms / 1000 / 60)` for the (positive) remaining cooldown. -/
def ceilMinutes (ms : Nat) : Nat := (ms + 59999) / 60000

/-- The `checkLoginAttempts` middleware (src/routes/public.js lines 152–171)
as a pure step: given the map, the source IP and `Date.now()`, it returns
`some minutes` when it responds 429 with the rounded-up cooldown, or `none`
when it calls `next()`; the second component is the map after the call
(the expired-record deletion is the only mutation). -/
def checkLoginAttempts (m : AttemptMap) (ip : String) (now : Nat) :
    Option Nat × AttemptMap :=
  let attempts := (mapGet m ip).getD ⟨0, 0⟩
  if attempts.count ≥ MAX_LOGIN_ATTEMPTS then
    let timeRemainingMs : Int := (attempts.lastAttempt : Int) + LOGIN_BLOCK_TIME - now
    if timeRemainingMs > 0 then
      (some (ceilMinutes timeRemainingMs.toNat), m)
    else
      (none, mapDelete m ip)
  else
    (none, m)

/-- A row of the user table (`prisma.Cluster0`): the fields the login
handler reads. -/
structure User where
  id : String
  name : String
  email : String
  password : String

/-- The log calls the login route makes, at the category+payload level:
`warn` carries the `tentativasRestantes` context value when present. -/
inductive RouteLog where
  | userAction (action userId : String)
  | warn (message : String) (attemptsRemaining : Option Int)
  | successLog (message : String)

/-- The outcome of `POST /login`. -/
inductive LoginResult where
  | rateLimited (minutes : Nat)
  | missingFields
  | invalidUser
  | invalidPassword (attemptsRemaining : Int)
  | loginSuccess (userId : String)

/-- The body of `router.post('/login')` (src/routes/public.js lines 351–424),
after the `checkLoginAttempts` middleware has called `next()`.  `db` models
the `Cluster0` table, `pwEq` models `bcrypt.compare` (password against the
stored hash).  A missing body field is modelled as the empty string (the
only falsy string).  Returns the HTTP outcome, the updated
`failedLoginAttempts` map, and the emitted log events in order. -/
def loginHandler (db : List User) (pwEq : String → String → Bool)
    (m : AttemptMap) (ip email password : String) (now : Nat) :
    LoginResult × AttemptMap × List RouteLog :=
  let log0 : List RouteLog := [.userAction "login_iniciado" "anonymous"]
  if email = "" ∨ password = "" then
    (.missingFields, m, log0 ++ [.warn "Login: Campos obrigatorios faltando" none])
  else
    match db.find? (fun u => u.email == email) with
    | none => (.invalidUser, m, log0 ++ [.warn "Login: Usuario nao encontrado" none])
    | some user =>
      if pwEq password user.password then
        (.loginSuccess user.id, mapDelete m ip,
         log0 ++ [.successLog "Login realizado com sucesso",
                  .userAction "login_concluido" user.id])
      else
        let attempts := (mapGet m ip).getD ⟨0, 0⟩
        let remaining : Int := (MAX_LOGIN_ATTEMPTS : Int) - (attempts.count + 1)
        (.invalidPassword remaining,
         mapSet m ip ⟨attempts.count + 1, now⟩,
         log0 ++ [.warn "Login: Senha invalida" (some remaining)])

/-- The whole login endpoint: `checkLoginAttempts` runs first; on a 429 the
handler (and with it every credential-validation step) is never entered and
no route log is emitted. -/
def loginPipeline (db : List User) (pwEq : String → String → Bool)
    (m : AttemptMap) (ip email password : String) (now : Nat) :
    LoginResult × AttemptMap × List RouteLog :=
  match checkLoginAttempts m ip now with
  | (some minutes, m') => (.rateLimited minutes, m', [])
  | (none, m') => loginHandler db pwEq m' ip email password now

/-! ## Dates and timestamps

`new Date(t).toISOString()` renders the **UTC** calendar date and time of
the epoch-millisecond timestamp `t` in fixed-width ISO-8601.  We model its
date component with the standard civil-from-days conversion (proleptic
Gregorian calendar), and its fixed-width digit fields directly with
`Nat.digitChar`. -/

/-- Gregorian calendar date `(year, month, day)` of a day count since
1970-01-01 (days ≥ 0).  Standard era/day-of-era civil-from-days algorithm. -/
def civilFromDays (z0 : Nat) : Nat × Nat × Nat :=
  let z := z0 + 719468
  let era := z / 146097
  let doe := z % 146097
  let yoe := (doe - doe / 1460 + doe / 36524 - doe / 146097) / 365
  let y := yoe + era * 400
  let doy := doe - (365 * yoe + yoe / 4 - yoe / 100)
  let mp := (5 * doy + 2) / 153
  let d := doy - (153 * mp + 2) / 5 + 1
  let m := if mp < 10 then mp + 3 else mp - 9
  (if m ≤ 2 then y + 1 else y, m, d)

/-- Two fixed-width decimal digits. -/
def pad2Chars (n : Nat) : List Char :=
  [Nat.digitChar (n / 10 % 10), Nat.digitChar (n % 10)]

/-- Three fixed-width decimal digits. -/
def pad3Chars (n : Nat) : List Char :=
  [Nat.digitChar (n / 100 % 10), Nat.digitChar (n / 10 % 10), Nat.digitChar (n % 10)]

/-- Four fixed-width decimal digits. -/
def pad4Chars (n : Nat) : List Char :=
  [Nat.digitChar (n / 1000 % 10), Nat.digitChar (n / 100 % 10),
   Nat.digitChar (n / 10 % 10), Nat.digitChar (n % 10)]

/-- The `YYYY-MM-DD` character rendering of a calendar date. -/
def isoDateChars (ymd : Nat × Nat × Nat) : List Char :=
  pad4Chars ymd.1 ++ ['-'] ++ pad2Chars ymd.2.1 ++ ['-'] ++ pad2Chars ymd.2.2

/-- The UTC day number of an epoch-millisecond timestamp. -/
def utcDay (now : Nat) : Nat := now / 86400000

/-- The date component of `new Date(now).toISOString()`, i.e. the result of
`.toISOString().split('T')[0]`: the **UTC** calendar date as `YYYY-MM-DD`. -/
def isoDatePart (now : Nat) : String :=
  String.mk (isoDateChars (civilFromDays (utcDay now)))

/-- `getFormattedDate` (src/utils/logger.js line 35): the full
`new Date().toISOString()` timestamp `YYYY-MM-DDTHH:MM:SS.mmmZ`. -/
def getFormattedDate (now : Nat) : String :=
  String.mk (isoDateChars (civilFromDays (utcDay now))
    ++ ['T'] ++ pad2Chars (now % 86400000 / 3600000)
    ++ [':'] ++ pad2Chars (now % 3600000 / 60000)
    ++ [':'] ++ pad2Chars (now % 60000 / 1000)
    ++ ['.'] ++ pad3Chars (now % 1000) ++ ['Z'])

/-- The logs directory (`path.join(__dirname, '..', 'logs')`), as a fixed
path string. -/
def logsDir : String := "logs"

/-- `getLogFileName` (src/utils/logger.js lines 40–43):
`path.join(logsDir, type + '-' + date + '.log')` where `date` is the date
component of `toISOString()` — the UTC calendar date. -/
def getLogFileName (type : String) (now : Nat) : String :=
  logsDir ++ "/" ++ type ++ "-" ++ isoDatePart now ++ ".log"

/-- The **local** calendar date of a timestamp under a fixed UTC offset
(in ms, e.g. −18000000 for UTC−5): the calendar date a wall clock at that
offset shows.  Used to compare the implemented naming (UTC) against the
spec's words ("local calendar date at write time"). -/
def localCivilDate (now : Nat) (offsetMs : Int) : Nat × Nat × Nat :=
  civilFromDays (((now : Int) + offsetMs).toNat / 86400000)

/-- Modelled from the spec: the sink file name the spec's words describe —
`{category}-{YYYY-MM-DD}.log` with the **local** calendar date at write
time (§3 LogSink, §6).  To be compared with `getLogFileName`, which the
source derives from `toISOString()` (UTC). -/
def getLogFileNameLocalSpec (type : String) (now : Nat) (offsetMs : Int) : String :=
  logsDir ++ "/" ++ type ++ "-" ++ String.mk (isoDateChars (localCivilDate now offsetMs)) ++ ".log"

/-! ## JSON serialization (`JSON.stringify`)

Only what the logger needs: object entries with `undefined` values are
skipped (JS drops them), `undefined` array elements render as `null`,
strings are quoted (the contexts logged here contain no characters that
JSON would escape, so quoting is plain). -/

mutual

/-- `JSON.stringify` of a value (as it appears nested inside a context). -/
def jsonStringify : JSValue → String
  | .null => "null"
  | .undef => "null"
  | .bool b => if b then "true" else "false"
  | .num n => toString n
  | .str s => "\"" ++ s ++ "\""
  | .arr xs => "[" ++ jsonStringifyList xs ++ "]"
  | .obj l => "\x7b" ++ jsonStringifyObj l ++ "\x7d"

/-- Comma-joined array elements. -/
def jsonStringifyList : List JSValue → String
  | [] => ""
  | [x] => jsonStringify x
  | x :: xs => jsonStringify x ++ "," ++ jsonStringifyList xs

/-- Comma-joined `"key":value` pairs, skipping `undefined` values. -/
def jsonStringifyObj : List (String × JSValue) → String
  | [] => ""
  | (k, v) :: rest =>
    match v with
    | .undef => jsonStringifyObj rest
    | _ =>
      let entry := "\"" ++ k ++ "\":" ++ jsonStringify v
      match jsonStringifyObj rest with
      | "" => entry
      | s => entry ++ "," ++ s

end

/-! ## Category logger (src/utils/logger.js, `logger`)

Each operation renders one message string and performs one console write
and one durable append; we embed each as a pure function from its inputs
(plus the clock value `now`) to the list of sink effects it performs, in
program order. -/

/-- A sink-level effect of a logger call (plus the response-body flush used
by the HTTP middleware model). -/
inductive Effect where
  | consoleWrite (s : String)
  | fileAppend (file : String) (line : String)
  | flushBody

/-- ANSI color codes from the `colors` table. -/
def colorReset : String := "\x1b[0m"

/-- Red. -/
def colorRed : String := "\x1b[31m"

/-- Yellow. -/
def colorYellow : String := "\x1b[33m"

/-- Green. -/
def colorGreen : String := "\x1b[32m"

/-- Blue. -/
def colorBlue : String := "\x1b[34m"

/-- Gray. -/
def colorGray : String := "\x1b[90m"

/-- A JS `Error`: the fields the logger reads. -/
structure JsError where
  message : String
  stack : String

/-- The optional `'\n  Context: ' + JSON.stringify(sanitizedContext)`
segment, appended only when the sanitized context has keys. -/
def contextSegment (sanitizedContext : JSValue) : String :=
  if (jsKeys sanitizedContext).length > 0 then
    "\n  Context: " ++ jsonStringify sanitizedContext
  else ""

/-- The optional `'| Details: ' + JSON.stringify(sanitizedDetails)` segment. -/
def detailsSegment (sanitizedDetails : JSValue) : String :=
  if (jsKeys sanitizedDetails).length > 0 then
    "| Details: " ++ jsonStringify sanitizedDetails
  else ""

/-- `writeToFile` (src/utils/logger.js lines 46–49): one blocking append of
`message + '\n'` to the day's file for the type; no try/catch inside. -/
def writeToFile (message : String) (type : String) (now : Nat) : Effect :=
  .fileAppend (getLogFileName type now) (message ++ "\n")

/-- `logger.error(message, error, context)`: render, one console write
(red), one append to the `errors` sink. -/
def logError (now : Nat) (message : String) (error : Option JsError)
    (context : JSValue) : List Effect :=
  let timestamp := getFormattedDate now
  let sanitizedContext := sanitizeSensitiveData context
  let errorDetails := match error with
    | some e => "\n  Stack: " ++ e.stack
    | none => ""
  let logMessage := "[" ++ timestamp ++ "] [ERROR] " ++ message ++ " "
    ++ contextSegment sanitizedContext ++ errorDetails
  [.consoleWrite (colorRed ++ logMessage ++ colorReset),
   writeToFile logMessage "errors" now]

/-- `logger.warn(message, context)`. -/
def logWarn (now : Nat) (message : String) (context : JSValue) : List Effect :=
  let timestamp := getFormattedDate now
  let sanitizedContext := sanitizeSensitiveData context
  let logMessage := "[" ++ timestamp ++ "] [WARN] " ++ message ++ " "
    ++ contextSegment sanitizedContext
  [.consoleWrite (colorYellow ++ logMessage ++ colorReset),
   writeToFile logMessage "warnings" now]

/-- `logger.info(message, context)`. -/
def logInfo (now : Nat) (message : String) (context : JSValue) : List Effect :=
  let timestamp := getFormattedDate now
  let sanitizedContext := sanitizeSensitiveData context
  let logMessage := "[" ++ timestamp ++ "] [INFO] " ++ message ++ " "
    ++ contextSegment sanitizedContext
  [.consoleWrite (colorBlue ++ logMessage ++ colorReset),
   writeToFile logMessage "general" now]

/-- `logger.success(message, context)`. -/
def logSuccess (now : Nat) (message : String) (context : JSValue) : List Effect :=
  let timestamp := getFormattedDate now
  let sanitizedContext := sanitizeSensitiveData context
  let logMessage := "[" ++ timestamp ++ "] [SUCCESS] " ++ message ++ " "
    ++ contextSegment sanitizedContext
  [.consoleWrite (colorGreen ++ logMessage ++ colorReset),
   writeToFile logMessage "general" now]

/-- `logger.debug(message, data, context)`: gated on
`process.env.DEBUG !== 'true'` (the `debugFlag` parameter); when the flag
is off it returns before any other statement runs. -/
def logDebug (debugFlag : Bool) (now : Nat) (message : String)
    (data : JSValue) (context : JSValue) : List Effect :=
  if debugFlag = false then []
  else
    let timestamp := getFormattedDate now
    let sanitizedContext := sanitizeSensitiveData context
    let sanitizedData := sanitizeSensitiveData data
    let logMessage := "[" ++ timestamp ++ "] [DEBUG] " ++ message ++ " "
      ++ (if jsTruthy sanitizedData then "\n  Data: " ++ jsonStringify sanitizedData else "")
      ++ " " ++ contextSegment sanitizedContext
    [.consoleWrite (colorGray ++ logMessage ++ colorReset),
     writeToFile logMessage "debug" now]

/-- `logger.userAction(action, userId, details)`. -/
def logUserAction (now : Nat) (action userId : String) (details : JSValue) : List Effect :=
  let timestamp := getFormattedDate now
  let sanitizedDetails := sanitizeSensitiveData details
  let logMessage := "[" ++ timestamp ++ "] [USER_ACTION] User: " ++ userId
    ++ " | Action: " ++ action ++ " " ++ detailsSegment sanitizedDetails
  [.consoleWrite (colorGreen ++ logMessage ++ colorReset),
   writeToFile logMessage "user-actions" now]

/-- The rendered line of `logger.http`. -/
def renderHttp (now : Nat) (method path : String) (statusCode duration : Nat)
    (userId : String) (details : JSValue) : String :=
  let timestamp := getFormattedDate now
  let sanitizedDetails := sanitizeSensitiveData details
  "[" ++ timestamp ++ "] [HTTP] " ++ method ++ " " ++ path
    ++ " | Status: " ++ toString statusCode
    ++ " | Duration: " ++ toString duration ++ "ms | User: " ++ userId
    ++ " " ++ detailsSegment sanitizedDetails

/-- `logger.http(method, path, statusCode, duration, userId, details)`:
status-colored console write plus one append to the `http` sink. -/
def logHttp (now : Nat) (method path : String) (statusCode duration : Nat)
    (userId : String) (details : JSValue) : List Effect :=
  let statusColor :=
    if statusCode ≥ 400 then colorRed
    else if statusCode ≥ 300 then colorYellow
    else colorGreen
  let logMessage := renderHttp now method path statusCode duration userId details
  [.consoleWrite (statusColor ++ logMessage ++ colorReset),
   writeToFile logMessage "http" now]

/-- `logger.auth(action, identifier, result, details)`. -/
def logAuth (now : Nat) (action identifier result : String) (details : JSValue) : List Effect :=
  let timestamp := getFormattedDate now
  let sanitizedDetails := sanitizeSensitiveData details
  let logMessage := "[" ++ timestamp ++ "] [AUTH] Action: " ++ action
    ++ " | Identifier: " ++ identifier ++ " | Result: " ++ result
    ++ " " ++ detailsSegment sanitizedDetails
  let color := if result = "success" then colorGreen else colorRed
  [.consoleWrite (color ++ logMessage ++ colorReset),
   writeToFile logMessage "auth" now]

/-- `logger.database(operation, entity, status, details)`. -/
def logDatabase (now : Nat) (operation entity status : String) (details : JSValue) : List Effect :=
  let timestamp := getFormattedDate now
  let sanitizedDetails := sanitizeSensitiveData details
  let logMessage := "[" ++ timestamp ++ "] [DATABASE] Operation: " ++ operation
    ++ " | Entity: " ++ entity ++ " | Status: " ++ status
    ++ " " ++ detailsSegment sanitizedDetails
  let color := if status = "success" then colorGreen else colorRed
  [.consoleWrite (color ++ logMessage ++ colorReset),
   writeToFile logMessage "database" now]

/-! ## HTTP instrumentation middleware (middlewares/logging.js)

`httpLoggingMiddleware` records `start = Date.now()` on entry and replaces
`res.json` with a wrapper; each call of the (wrapped) `res.json` logs one
HTTP event and then forwards to the original `res.json`, which flushes the
body.  Response emissions that do not go through `res.json`
(`res.sendFile`, `express.static`, `res.end`) are not intercepted. -/

/-- The request fields the middleware reads. -/
structure HttpReq where
  method : String
  path : String
  params : List (String × String)
  query : List (String × String)
  userId : Option String

/-- One response-emission call the handler makes, with the clock value at
the moment of the call: through the intercepted `res.json` (carrying
`res.statusCode`), or through any other primitive. -/
inductive EmitCall where
  | json (statusCode : Nat) (time : Nat)
  | otherPrimitive (time : Nat)

/-- The `details` context the middleware builds:
`{ params: ..., query: ... }`, each `undefined` when empty. -/
def mkDetails (req : HttpReq) : JSValue :=
  .obj [("params",
          if req.params.length > 0
          then .obj (req.params.map (fun p => (p.1, .str p.2))) else .undef),
        ("query",
          if req.query.length > 0
          then .obj (req.query.map (fun p => (p.1, .str p.2))) else .undef)]

/-- What one emission call performs under the middleware: an intercepted
`res.json` call computes `duration = now - start`, logs one HTTP event, and
then the original `res.json` flushes the body; any other primitive just
flushes the body. -/
def wrappedEmit (req : HttpReq) (start : Nat) : EmitCall → List Effect
  | .json statusCode t =>
    let duration := t - start
    let userId := req.userId.getD "anonymous"
    logHttp t req.method req.path statusCode duration userId (mkDetails req)
      ++ [.flushBody]
  | .otherPrimitive _ => [.flushBody]

/-- A request processed under `httpLoggingMiddleware`: the effects of the
handler's emission calls, in order, with `start` captured at middleware
entry. -/
def httpLoggingRun (req : HttpReq) (start : Nat) (emits : List EmitCall) : List Effect :=
  (emits.map (wrappedEmit req start)).flatten

/-- Is the effect a console write? -/
def isConsoleWrite : Effect → Bool
  | .consoleWrite _ => true
  | _ => false

/-- Is the effect a durable-sink append? -/
def isFileAppend : Effect → Bool
  | .fileAppend _ _ => true
  | _ => false

/-- Number of console writes in an effect list. -/
def countConsole (es : List Effect) : Nat := (es.filter isConsoleWrite).length

/-- Number of durable-sink appends in an effect list. -/
def countFile (es : List Effect) : Nat := (es.filter isFileAppend).length

/-- `sub` occurs as a substring of `s`. -/
def containsSub (s sub : String) : Prop := ∃ l r, s = l ++ (sub ++ r)

/-! ## Sink failure semantics

The durable sink is `fs.appendFileSync`, which throws on I/O failure; no
logger operation wraps it in try/catch, so that exception propagates to
the logging call site.  The console sink is Node's `console`, whose writes
never throw: the `Console` class is constructed with `ignoreErrors`
enabled, so a failing console stream silently drops the output.  `runPlan`
executes an effect list under those semantics: `consoleOk = false` makes
every console write fail (output dropped, no exception), `fileOk = false`
makes every durable append fail (exception, aborting the call). -/

def runPlan (fileOk : Bool) (consoleOk : Bool) : List Effect → Except String (List Effect)
  | [] => .ok []
  | .consoleWrite s :: rest =>
    (runPlan fileOk consoleOk rest).map
      (fun t => if consoleOk then .consoleWrite s :: t else t)
  | .fileAppend f s :: rest =>
    if fileOk then (runPlan fileOk consoleOk rest).map (fun t => .fileAppend f s :: t)
    else .error ("EIO: " ++ f)
  | .flushBody :: rest =>
    (runPlan fileOk consoleOk rest).map (fun t => .flushBody :: t)

/-- The call raised an exception that reached the caller. -/
def isThrown : Except String (List Effect) → Bool
  | .error _ => true
  | .ok _ => false

/-! ## Theorems -/

/-- Helper: in the blocked state (threshold reached, window not elapsed)
the entry check returns the rounded-up remaining cooldown and leaves the
map untouched. -/
theorem checkLoginAttempts_blocked (m : AttemptMap) (ip : String) (now : Nat)
    (h5 : MAX_LOGIN_ATTEMPTS ≤ ((mapGet m ip).getD ⟨0, 0⟩).count)
    (ht : now < ((mapGet m ip).getD ⟨0, 0⟩).lastAttempt + LOGIN_BLOCK_TIME) :
    checkLoginAttempts m ip now =
      (some (ceilMinutes (((mapGet m ip).getD ⟨0, 0⟩).lastAttempt + LOGIN_BLOCK_TIME - now)), m) := by
  unfold checkLoginAttempts
  rw [if_pos h5, if_pos (by omega)]
  have htn : (((((mapGet m ip).getD ⟨0, 0⟩).lastAttempt : Int) + LOGIN_BLOCK_TIME - now)).toNat
      = ((mapGet m ip).getD ⟨0, 0⟩).lastAttempt + LOGIN_BLOCK_TIME - now := by omega
  rw [htn]

/-- Helper: when the state is not blocked, the entry check calls `next()`;
the map is the input map except that a reached-threshold record whose
window has elapsed is deleted. -/
theorem checkLoginAttempts_pass (m : AttemptMap) (ip : String) (now : Nat)
    (h : ¬(MAX_LOGIN_ATTEMPTS ≤ ((mapGet m ip).getD ⟨0, 0⟩).count ∧
           now < ((mapGet m ip).getD ⟨0, 0⟩).lastAttempt + LOGIN_BLOCK_TIME)) :
    (checkLoginAttempts m ip now).1 = none := by
  unfold checkLoginAttempts
  by_cases h5 : MAX_LOGIN_ATTEMPTS ≤ ((mapGet m ip).getD ⟨0, 0⟩).count
  · rw [if_pos h5, if_neg (by omega)]
  · rw [if_neg h5]

/-- C2: a login request from a BLOCKED IP (threshold-many failures, still
inside the block window) is answered with the rate-limit response carrying
the remaining cooldown rounded up to whole minutes, with the attempt map
untouched and no handler log emitted — in particular the result is the
same for every user table and password comparator, so credential
validation is never consulted; in every other state the middleware calls
`next()` and the request proceeds into the credential-validating handler. -/
theorem c2_blocked_rejected_before_credentials (db : List User)
    (pwEq : String → String → Bool) (m : AttemptMap)
    (ip email password : String) (now : Nat) :
    (MAX_LOGIN_ATTEMPTS ≤ ((mapGet m ip).getD ⟨0, 0⟩).count →
     now < ((mapGet m ip).getD ⟨0, 0⟩).lastAttempt + LOGIN_BLOCK_TIME →
     loginPipeline db pwEq m ip email password now =
       (.rateLimited (ceilMinutes
          (((mapGet m ip).getD ⟨0, 0⟩).lastAttempt + LOGIN_BLOCK_TIME - now)), m, []))
    ∧ (¬(MAX_LOGIN_ATTEMPTS ≤ ((mapGet m ip).getD ⟨0, 0⟩).count ∧
         now < ((mapGet m ip).getD ⟨0, 0⟩).lastAttempt + LOGIN_BLOCK_TIME) →
       loginPipeline db pwEq m ip email password now =
         loginHandler db pwEq (checkLoginAttempts m ip now).2 ip email password now) := by
  constructor
  · intro h5 ht
    unfold loginPipeline
    rw [checkLoginAttempts_blocked m ip now h5 ht]
  · intro h
    have h1 := checkLoginAttempts_pass m ip now h
    unfold loginPipeline
    rcases hc : checkLoginAttempts m ip now with ⟨o, m'⟩
    rw [hc] at h1
    simp only at h1
    subst h1
    rfl

/-- C2 witness: IP `203.0.113.9` with 5 failures at time 0 is rejected at
`now = 60000` (1 minute in) with a 4-minute cooldown; at `now = 360000`
(6 minutes in) the same attempt reaches credential validation. -/
theorem c2_blocked_rejected_before_credentials_witness :
    (loginPipeline [] (fun a b => a == b) [("203.0.113.9", ⟨5, 0⟩)]
       "203.0.113.9" "a@b.com" "pw" 60000 =
       (.rateLimited 4, [("203.0.113.9", ⟨5, 0⟩)], []))
    ∧ (loginPipeline [] (fun a b => a == b) [("203.0.113.9", ⟨5, 0⟩)]
       "203.0.113.9" "a@b.com" "pw" 360000 =
       loginHandler [] (fun a b => a == b)
         (checkLoginAttempts [("203.0.113.9", ⟨5, 0⟩)] "203.0.113.9" 360000).2
         "203.0.113.9" "a@b.com" "pw" 360000) := by
  constructor
  · have h := (c2_blocked_rejected_before_credentials []
      (fun a b => a == b) [("203.0.113.9", ⟨5, 0⟩)]
      "203.0.113.9" "a@b.com" "pw" 60000).1 (by decide) (by decide)
    simpa using h
  · exact (c2_blocked_rejected_before_credentials []
      (fun a b => a == b) [("203.0.113.9", ⟨5, 0⟩)]
      "203.0.113.9" "a@b.com" "pw" 360000).2 (by decide)

/-- C10: while an IP is blocked (and the cooldown has not elapsed) the
rate-limited rejection leaves the whole per-IP attempt map unchanged, so
attempts made while blocked never extend the cooldown window. -/
theorem c10_blocked_rejection_preserves_map (db : List User)
    (pwEq : String → String → Bool) (m : AttemptMap)
    (ip email password : String) (now : Nat)
    (h5 : MAX_LOGIN_ATTEMPTS ≤ ((mapGet m ip).getD ⟨0, 0⟩).count)
    (ht : now < ((mapGet m ip).getD ⟨0, 0⟩).lastAttempt + LOGIN_BLOCK_TIME) :
    (loginPipeline db pwEq m ip email password now).2.1 = m := by
  unfold loginPipeline
  rw [checkLoginAttempts_blocked m ip now h5 ht]

/-- C10 witness: a blocked rejection at a concrete input returns the map
it was given. -/
theorem c10_blocked_rejection_preserves_map_witness :
    MAX_LOGIN_ATTEMPTS ≤ ((mapGet [("203.0.113.9", ⟨6, 1000⟩)] "203.0.113.9").getD ⟨0, 0⟩).count
    ∧ (loginPipeline [] (fun a b => a == b) [("203.0.113.9", ⟨6, 1000⟩)]
         "203.0.113.9" "a@b.com" "pw" 2000).2.1 = [("203.0.113.9", ⟨6, 1000⟩)] :=
  ⟨by decide,
   c10_blocked_rejection_preserves_map [] (fun a b => a == b)
     [("203.0.113.9", ⟨6, 1000⟩)] "203.0.113.9" "a@b.com" "pw" 2000
     (by decide) (by decide)⟩

/-- C4 counterexample: IP `9.9.9.9` has a record with `failureCount = 3`
whose last failure was at time 0; at `now = 600000` (10 minutes later,
well past the 5-minute block window) the entry check does NOT discard the
record — the map comes back unchanged with the record still present —
contradicting the claim that expiry discards the record regardless of the
stored failureCount. -/
theorem c4_counterexample :
    checkLoginAttempts [("9.9.9.9", ⟨3, 0⟩)] "9.9.9.9" 600000 =
      (none, [("9.9.9.9", ⟨3, 0⟩)])
    ∧ LOGIN_BLOCK_TIME < 600000
    ∧ mapGet [("9.9.9.9", ⟨3, 0⟩)] "9.9.9.9" = some ⟨3, 0⟩ := by
  refine ⟨rfl, by decide, rfl⟩

/-- C4 as amended: lazy expiry at the entry check applies only to records
that reached the failure threshold: when `failureCount ≥ maxAttempts` and
the block window has elapsed (`lastFailureAt + blockWindow ≤ now`), the
record is deleted and the attempt proceeds to credential validation; a
record with fewer failures is never discarded by the entry check — the
attempt proceeds, but with its accumulated failures retained. -/
theorem c4_expiry_only_discards_blocked_records (m : AttemptMap)
    (ip : String) (now : Nat) :
    (MAX_LOGIN_ATTEMPTS ≤ ((mapGet m ip).getD ⟨0, 0⟩).count →
     ((mapGet m ip).getD ⟨0, 0⟩).lastAttempt + LOGIN_BLOCK_TIME ≤ now →
     checkLoginAttempts m ip now = (none, mapDelete m ip))
    ∧ (((mapGet m ip).getD ⟨0, 0⟩).count < MAX_LOGIN_ATTEMPTS →
       checkLoginAttempts m ip now = (none, m)) := by
  constructor
  · intro h5 ht
    unfold checkLoginAttempts
    rw [if_pos h5, if_neg (by omega)]
  · intro hlt
    unfold checkLoginAttempts
    rw [if_neg (by omega)]

/-- C4 amended witness: a 5-failure record is discarded once the window
has elapsed, while a 3-failure record survives the same entry check. -/
theorem c4_expiry_only_discards_blocked_records_witness :
    checkLoginAttempts [("9.9.9.9", ⟨5, 0⟩)] "9.9.9.9" 600000 =
      (none, mapDelete [("9.9.9.9", ⟨5, 0⟩)] "9.9.9.9")
    ∧ checkLoginAttempts [("9.9.9.9", ⟨3, 0⟩)] "9.9.9.9" 600000 =
      (none, [("9.9.9.9", ⟨3, 0⟩)]) :=
  ⟨(c4_expiry_only_discards_blocked_records [("9.9.9.9", ⟨5, 0⟩)] "9.9.9.9" 600000).1
     (by decide) (by decide),
   (c4_expiry_only_discards_blocked_records [("9.9.9.9", ⟨3, 0⟩)] "9.9.9.9" 600000).2
     (by decide)⟩

/-- C3 counterexample: a login failure caused by an unknown e-mail (empty
user table) returns 401 with the attempt map exactly as it was — here the
empty map, so no record is created and no failure is counted, and the only
WARN event carries no attemptsRemaining — contradicting the claim that
every credential failure increments the source IP's failureCount. -/
theorem c3_counterexample :
    loginHandler [] (fun a b => a == b) [] "1.2.3.4" "ghost@x.com" "pw" 1000 =
      (.invalidUser, [],
       [.userAction "login_iniciado" "anonymous",
        .warn "Login: Usuario nao encontrado" none])
    ∧ mapGet ((loginHandler [] (fun a b => a == b) [] "1.2.3.4" "ghost@x.com" "pw" 1000).2.1)
        "1.2.3.4" = none :=
  ⟨rfl, rfl⟩

/-- C3 as amended: only a wrong password for an existing user updates the
guard: the IP's failureCount is incremented by one (the record created
with the count at zero if absent), lastFailureAt is refreshed to the
current time, and a WARN-category event carrying
`attemptsRemaining = maxAttempts - failureCount` (possibly negative) is
emitted; a login failure for an unknown e-mail leaves the map untouched. -/
theorem c3_wrong_password_increments_counter (db : List User)
    (pwEq : String → String → Bool) (m : AttemptMap)
    (ip email password : String) (now : Nat) (user : User)
    (hfind : db.find? (fun u => u.email == email) = some user)
    (hpw : pwEq password user.password = false)
    (hemail : email ≠ "") (hpassword : password ≠ "") :
    loginHandler db pwEq m ip email password now =
      (.invalidPassword ((MAX_LOGIN_ATTEMPTS : Int) - (((mapGet m ip).getD ⟨0, 0⟩).count + 1)),
       mapSet m ip ⟨((mapGet m ip).getD ⟨0, 0⟩).count + 1, now⟩,
       [.userAction "login_iniciado" "anonymous",
        .warn "Login: Senha invalida"
          (some ((MAX_LOGIN_ATTEMPTS : Int) - (((mapGet m ip).getD ⟨0, 0⟩).count + 1)))]) := by
  unfold loginHandler
  rw [if_neg (by simp [hemail, hpassword]), hfind]
  simp [hpw]

/-- C3 amended witness: a wrong password for the stored user, from an IP
with no prior record, creates the record with count 1, stamps the failure
time, and reports 4 attempts remaining. -/
theorem c3_wrong_password_increments_counter_witness :
    loginHandler [⟨"u1", "N", "a@b.com", "hash"⟩] (fun a b => a == b)
      [] "1.2.3.4" "a@b.com" "wrong" 777 =
      (.invalidPassword 4, [("1.2.3.4", ⟨1, 777⟩)],
       [.userAction "login_iniciado" "anonymous",
        .warn "Login: Senha invalida" (some 4)]) := by
  have h := c3_wrong_password_increments_counter
    [⟨"u1", "N", "a@b.com", "hash"⟩] (fun a b => a == b)
    [] "1.2.3.4" "a@b.com" "wrong" 777 ⟨"u1", "N", "a@b.com", "hash"⟩
    rfl (by decide) (by decide) (by decide)
  simpa using h

/-- C9: `sanitizeSensitiveData` is a pure total Lean function (so it is
deterministic, never throws and cannot mutate its argument), and on every
non-mapping input — `null`, `undefined`, booleans, numbers, strings (the
embedding classifies JS arrays as mappings, since `typeof [] === 'object'`
sends them down the object branch) — it returns its input unchanged. -/
theorem c9_sanitize_total_identity_on_non_mappings (v : JSValue)
    (h : isMapping v = false) : sanitizeSensitiveData v = v := by
  cases v <;> simp_all [isMapping, sanitizeSensitiveData, jsTruthy, jsTypeofObject]

/-- C9 witness: concrete non-mapping inputs pass through unchanged. -/
theorem c9_sanitize_total_identity_on_non_mappings_witness :
    isMapping (JSValue.str "password hunter2") = false
    ∧ sanitizeSensitiveData (JSValue.str "password hunter2") = JSValue.str "password hunter2" :=
  ⟨by decide, c9_sanitize_total_identity_on_non_mappings _ (by decide)⟩

/-- C5: every non-DEBUG logger operation performs exactly one console
write and exactly one durable-sink append, for all inputs; the DEBUG
operation performs none of either when the debug flag is false — its
result is the empty effect list outright, so no part of the pipeline
(redaction included) contributes to it — and exactly one of each when the
flag is true. -/
theorem c5_one_console_write_one_append :
    (∀ now message error context, countConsole (logError now message error context) = 1
       ∧ countFile (logError now message error context) = 1)
    ∧ (∀ now message context, countConsole (logWarn now message context) = 1
       ∧ countFile (logWarn now message context) = 1)
    ∧ (∀ now message context, countConsole (logInfo now message context) = 1
       ∧ countFile (logInfo now message context) = 1)
    ∧ (∀ now message context, countConsole (logSuccess now message context) = 1
       ∧ countFile (logSuccess now message context) = 1)
    ∧ (∀ now action userId details, countConsole (logUserAction now action userId details) = 1
       ∧ countFile (logUserAction now action userId details) = 1)
    ∧ (∀ now method path statusCode duration userId details,
         countConsole (logHttp now method path statusCode duration userId details) = 1
       ∧ countFile (logHttp now method path statusCode duration userId details) = 1)
    ∧ (∀ now action identifier result details,
         countConsole (logAuth now action identifier result details) = 1
       ∧ countFile (logAuth now action identifier result details) = 1)
    ∧ (∀ now operation entity status details,
         countConsole (logDatabase now operation entity status details) = 1
       ∧ countFile (logDatabase now operation entity status details) = 1)
    ∧ (∀ now message data context, logDebug false now message data context = [])
    ∧ (∀ now message data context,
         countConsole (logDebug true now message data context) = 1
       ∧ countFile (logDebug true now message data context) = 1) := by
  refine ⟨?_, ?_, ?_, ?_, ?_, ?_, ?_, ?_, ?_, ?_⟩ <;>
    intros <;>
    simp [logError, logWarn, logInfo, logSuccess, logUserAction, logHttp,
      logAuth, logDatabase, logDebug, writeToFile, countConsole, countFile,
      isConsoleWrite, isFileAppend, List.filter]

/-- Helper: running a console-write-then-durable-append plan with a
failing durable sink raises at the append. -/
theorem runPlan_fileFail (c : Bool) (a f s : String) :
    runPlan false c [.consoleWrite a, .fileAppend f s] = .error ("EIO: " ++ f) := by
  simp [runPlan, Except.map]

/-- Helper: running the same plan with a failing console stream and a
healthy durable sink completes normally; only the console output is lost. -/
theorem runPlan_consoleFail (a f s : String) :
    runPlan true false [.consoleWrite a, .fileAppend f s] = .ok [.fileAppend f s] := by
  simp [runPlan, Except.map]

/-- C7: for every logger operation, a durable-sink append failure is not
caught inside the logger and surfaces as an exception at the call site,
while a console-sink failure is absorbed (Node's console never throws) and
the call completes normally. -/
theorem c7_append_failure_propagates_console_failure_swallowed :
    (∀ now message error context,
       isThrown (runPlan false true (logError now message error context)) = true
       ∧ isThrown (runPlan true false (logError now message error context)) = false)
    ∧ (∀ now message context,
       isThrown (runPlan false true (logWarn now message context)) = true
       ∧ isThrown (runPlan true false (logWarn now message context)) = false)
    ∧ (∀ now message context,
       isThrown (runPlan false true (logInfo now message context)) = true
       ∧ isThrown (runPlan true false (logInfo now message context)) = false)
    ∧ (∀ now message context,
       isThrown (runPlan false true (logSuccess now message context)) = true
       ∧ isThrown (runPlan true false (logSuccess now message context)) = false)
    ∧ (∀ now action userId details,
       isThrown (runPlan false true (logUserAction now action userId details)) = true
       ∧ isThrown (runPlan true false (logUserAction now action userId details)) = false)
    ∧ (∀ now method path statusCode duration userId details,
       isThrown (runPlan false true (logHttp now method path statusCode duration userId details)) = true
       ∧ isThrown (runPlan true false (logHttp now method path statusCode duration userId details)) = false)
    ∧ (∀ now action identifier result details,
       isThrown (runPlan false true (logAuth now action identifier result details)) = true
       ∧ isThrown (runPlan true false (logAuth now action identifier result details)) = false)
    ∧ (∀ now operation entity status details,
       isThrown (runPlan false true (logDatabase now operation entity status details)) = true
       ∧ isThrown (runPlan true false (logDatabase now operation entity status details)) = false)
    ∧ (∀ now message data context,
       isThrown (runPlan false true (logDebug true now message data context)) = true
       ∧ isThrown (runPlan true false (logDebug true now message data context)) = false) := by
  refine ⟨?_, ?_, ?_, ?_, ?_, ?_, ?_, ?_, ?_⟩ <;>
    intros <;>
    constructor <;>
    simp [logError, logWarn, logInfo, logSuccess, logUserAction, logHttp,
      logAuth, logDatabase, logDebug, writeToFile, runPlan_fileFail,
      runPlan_consoleFail, isThrown]

/-- Helper: assigning to a key that is not the head's key walks past the
head. -/
theorem setVal_cons_ne (key : String) (v : JSValue) (k : String) (w : JSValue)
    (t : List (String × JSValue)) (h : k ≠ key) :
    setVal key v ((k, w) :: t) = (k, w) :: setVal key v t := by
  simp [setVal, h]

/-- Helper: the redaction fold over keys that avoid the head entry's key
leaves the head entry in place. -/
theorem sanitize_foldl_cons (ks : List String) (k : String) (x : JSValue)
    (t : List (String × JSValue)) (hk : k ∉ ks) :
    ks.foldl
      (fun acc key => if isSensitiveKey key then setVal key (JSValue.str REDACTED) acc else acc)
      ((k, x) :: t) =
    (k, x) :: ks.foldl
      (fun acc key => if isSensitiveKey key then setVal key (JSValue.str REDACTED) acc else acc)
      t := by
  induction ks generalizing x t with
  | nil => rfl
  | cons a ks ih =>
    have hka : k ≠ a := fun he => hk (he ▸ List.mem_cons_self a ks)
    have hks : k ∉ ks := fun hm => hk (List.mem_cons_of_mem a hm)
    simp only [List.foldl_cons]
    by_cases hs : isSensitiveKey a
    · rw [if_pos hs, if_pos hs, setVal_cons_ne a _ k x t hka, ih _ _ hks]
    · rw [if_neg hs, if_neg hs, ih _ _ hks]

/-- Helper: with unique keys (JS objects always have unique keys), the
source's copy-then-assign loop equals a pointwise map over the entries. -/
theorem sanitizeEntries_eq_map (l : List (String × JSValue))
    (hnd : (l.map Prod.fst).Nodup) :
    sanitizeEntries l =
      l.map (fun p => if isSensitiveKey p.1 then (p.1, JSValue.str REDACTED) else p) := by
  induction l with
  | nil => rfl
  | cons p t ih =>
    obtain ⟨k, x⟩ := p
    simp only [List.map_cons, List.nodup_cons] at hnd
    obtain ⟨hk, hnd'⟩ := hnd
    unfold sanitizeEntries
    simp only [List.map_cons, List.foldl_cons]
    by_cases hs : isSensitiveKey k
    · rw [if_pos hs]
      have h1 : setVal k (JSValue.str REDACTED) ((k, x) :: t) =
          (k, JSValue.str REDACTED) :: t := by simp [setVal]
      rw [h1, sanitize_foldl_cons _ _ _ _ hk]
      unfold sanitizeEntries at ih
      rw [ih hnd']
      simp [hs]
    · rw [if_neg hs, sanitize_foldl_cons _ _ _ _ hk]
      unfold sanitizeEntries at ih
      rw [ih hnd']
      simp [hs]

/-- C1: on a mapping context with unique keys, `sanitize` replaces the
value of exactly those top-level entries whose key's lowercase form
contains one of the sensitive fragments (`password`, `token`,
`authorization`, `secret`, `api_key`, `creditCard`, `cpf`, `phone`, under
case-sensitive containment) with the literal `***REDACTED***`, and every
other entry — nested mappings with their own sensitive keys included —
passes through identically. -/
theorem c1_sanitize_redacts_exactly_sensitive_top_level_keys
    (l : List (String × JSValue)) (hnd : (l.map Prod.fst).Nodup) :
    sanitizeSensitiveData (.obj l) =
      .obj (l.map (fun p => if isSensitiveKey p.1 then (p.1, JSValue.str REDACTED) else p)) := by
  show JSValue.obj (sanitizeEntries l) = _
  rw [sanitizeEntries_eq_map l hnd]

/-- C1 witness: `password` is redacted at top level; the nested object
under `user` — which itself contains a sensitive `secret` key — and the
`creditCard` entry (whose fragment carries a capital letter and can never
match a lowercased key) pass through unchanged. -/
theorem c1_sanitize_redacts_exactly_sensitive_top_level_keys_witness :
    (([("password", JSValue.str "hunter2"),
       ("user", JSValue.obj [("secret", JSValue.str "s")]),
       ("creditCard", JSValue.str "4111")].map Prod.fst).Nodup)
    ∧ sanitizeSensitiveData
        (.obj [("password", JSValue.str "hunter2"),
               ("user", JSValue.obj [("secret", JSValue.str "s")]),
               ("creditCard", JSValue.str "4111")]) =
      .obj [("password", JSValue.str REDACTED),
            ("user", JSValue.obj [("secret", JSValue.str "s")]),
            ("creditCard", JSValue.str "4111")] := by
  refine ⟨by decide, ?_⟩
  have h := c1_sanitize_redacts_exactly_sensitive_top_level_keys
    [("password", JSValue.str "hunter2"),
     ("user", JSValue.obj [("secret", JSValue.str "s")]),
     ("creditCard", JSValue.str "4111")] (by decide)
  rw [h]
  rfl

/-- Helper: decimal digit characters are distinct. -/
theorem digitChar_inj : ∀ a < 10, ∀ b < 10, Nat.digitChar a = Nat.digitChar b → a = b := by
  decide

/-- Helper: the month field of a civil date is in `[1, 12]`. -/
theorem civilFromDays_month_bounds (z : Nat) :
    1 ≤ (civilFromDays z).2.1 ∧ (civilFromDays z).2.1 ≤ 12 := by
  unfold civilFromDays
  simp only
  split <;> omega

/-- Helper: the day field of a civil date is in `[1, 31]`. -/
theorem civilFromDays_day_bounds (z : Nat) :
    1 ≤ (civilFromDays z).2.2 ∧ (civilFromDays z).2.2 ≤ 31 := by
  unfold civilFromDays
  simp only
  omega

/-- Helper: the fixed-width `YYYY-MM-DD` rendering is injective on dates
whose fields fit their widths. -/
theorem isoDateChars_inj (y1 m1 d1 y2 m2 d2 : Nat)
    (hy1 : y1 < 10000) (hy2 : y2 < 10000)
    (hm1 : m1 < 100) (hm2 : m2 < 100) (hd1 : d1 < 100) (hd2 : d2 < 100)
    (h : isoDateChars (y1, m1, d1) = isoDateChars (y2, m2, d2)) :
    y1 = y2 ∧ m1 = m2 ∧ d1 = d2 := by
  simp [isoDateChars, pad4Chars, pad2Chars] at h
  obtain ⟨h1, h2, h3, h4, h5, h6, h7, h8⟩ := h
  have e1 := digitChar_inj _ (by omega) _ (by omega) h1
  have e2 := digitChar_inj _ (by omega) _ (by omega) h2
  have e3 := digitChar_inj _ (by omega) _ (by omega) h3
  have e4 := digitChar_inj _ (by omega) _ (by omega) h4
  have e5 := digitChar_inj _ (by omega) _ (by omega) h5
  have e6 := digitChar_inj _ (by omega) _ (by omega) h6
  have e7 := digitChar_inj _ (by omega) _ (by omega) h7
  have e8 := digitChar_inj _ (by omega) _ (by omega) h8
  omega

/-- Helper: the character data of a sink file name splits into the
category prefix, the date characters, and the `.log` suffix. -/
theorem getLogFileName_data (type : String) (t : Nat) :
    (getLogFileName type t).data =
      (logsDir ++ "/" ++ type ++ "-").data
        ++ (isoDateChars (civilFromDays (utcDay t)) ++ (".log").data) := by
  simp [getLogFileName, isoDatePart, String.data_append, List.append_assoc]

/-- C8 counterexample: with a UTC−5 wall clock (offset −18000000 ms), the
timestamps 86000000 (23:53:20 local Jan 1 wall time … actually 18:53:20
local) and 86400000 fall on the same **local** calendar date 1970-01-01,
yet the logger appends them to different `errors` files
(`errors-1970-01-01.log` vs `errors-1970-01-02.log`), because the file
name is derived from `toISOString()` — the UTC date — not the local
calendar date; the same-local-date/same-file half of the claim fails. -/
theorem c8_counterexample :
    localCivilDate 86000000 (-18000000) = localCivilDate 86400000 (-18000000)
    ∧ getLogFileName "errors" 86000000 ≠ getLogFileName "errors" 86400000
    ∧ getLogFileName "errors" 86400000 ≠ getLogFileNameLocalSpec "errors" 86400000 (-18000000) := by
  refine ⟨by decide, by decide, by decide⟩

/-- C8 as amended: every durable append for a category keyword goes to
`{keyword}-{YYYY-MM-DD}.log` where the date is the **UTC** calendar date
of the write; two events of the same category on the same UTC calendar
date land in the same file, and events on different UTC calendar dates
(year below 10000) land in different files. -/
theorem c8_utc_date_determines_sink_file (type : String) (t1 t2 : Nat) :
    (civilFromDays (utcDay t1) = civilFromDays (utcDay t2) →
       getLogFileName type t1 = getLogFileName type t2)
    ∧ ((civilFromDays (utcDay t1)).1 < 10000 →
       (civilFromDays (utcDay t2)).1 < 10000 →
       civilFromDays (utcDay t1) ≠ civilFromDays (utcDay t2) →
       getLogFileName type t1 ≠ getLogFileName type t2) := by
  constructor
  · intro h
    simp [getLogFileName, isoDatePart, h]
  · intro hy1 hy2 hne heq
    apply hne
    have hdata := congrArg String.data heq
    rw [getLogFileName_data, getLogFileName_data] at hdata
    have hmid := List.append_cancel_left hdata
    have hiso := List.append_cancel_right hmid
    rcases hc1 : civilFromDays (utcDay t1) with ⟨ya, ma, da⟩
    rcases hc2 : civilFromDays (utcDay t2) with ⟨yb, mb, db⟩
    have hm1 := civilFromDays_month_bounds (utcDay t1)
    have hm2 := civilFromDays_month_bounds (utcDay t2)
    have hd1 := civilFromDays_day_bounds (utcDay t1)
    have hd2 := civilFromDays_day_bounds (utcDay t2)
    rw [hc1] at hiso hm1 hd1 hy1
    rw [hc2] at hiso hm2 hd2 hy2
    simp only at hm1 hm2 hd1 hd2 hy1 hy2
    have := isoDateChars_inj ya ma da yb mb db hy1 hy2
      (by omega) (by omega) (by omega) (by omega) hiso
    simp [this.1, this.2.1, this.2.2]

/-- C8 amended witness: two same-UTC-day timestamps share a file; the UTC
days 0 and 1 (years 1970, below 10000) get different files. -/
theorem c8_utc_date_determines_sink_file_witness :
    (civilFromDays (utcDay 1000) = civilFromDays (utcDay 43200000)
     ∧ getLogFileName "general" 1000 = getLogFileName "general" 43200000)
    ∧ ((civilFromDays (utcDay 1000)).1 < 10000
       ∧ (civilFromDays (utcDay 86400000)).1 < 10000
       ∧ civilFromDays (utcDay 1000) ≠ civilFromDays (utcDay 86400000)
       ∧ getLogFileName "general" 1000 ≠ getLogFileName "general" 86400000) :=
  ⟨⟨by decide,
    (c8_utc_date_determines_sink_file "general" 1000 43200000).1 (by decide)⟩,
   ⟨by decide, by decide, by decide,
    (c8_utc_date_determines_sink_file "general" 1000 86400000).2
      (by decide) (by decide) (by decide)⟩⟩

/-- Helper: a string begins with itself. -/
theorem containsSub_head (sub r : String) : containsSub (sub ++ r) sub :=
  ⟨"", r, (String.empty_append _).symm⟩

/-- Helper: substring containment survives prepending. -/
theorem containsSub_append_right (s t sub : String) :
    containsSub t sub → containsSub (s ++ t) sub :=
  fun ⟨l, r, h⟩ => ⟨s ++ l, r, by rw [h, String.append_assoc]⟩

/-- Helper: substring containment survives appending. -/
theorem containsSub_append_left (s t sub : String) :
    containsSub s sub → containsSub (s ++ t) sub :=
  fun ⟨l, r, h⟩ => ⟨l, r ++ t, by rw [h]; simp [String.append_assoc]⟩

/-- C6 counterexample: a request to `GET /` completes — its body is
flushed to the transport — through a primitive other than `res.json`
(the source's `GET /` handler responds with `res.sendFile`, server.js),
and the middleware emits **zero** HTTP-category events for it, not exactly
one: only `res.json` is intercepted. -/
theorem c6_counterexample :
    httpLoggingRun ⟨"GET", "/", [], [], none⟩ 0 [.otherPrimitive 12] = [.flushBody]
    ∧ countFile (httpLoggingRun ⟨"GET", "/", [], [], none⟩ 0 [.otherPrimitive 12]) = 0 :=
  ⟨rfl, rfl⟩

/-- C6 as amended: for every inbound request whose handler emits its body
through the JSON emission primitive — the single primitive the middleware
intercepts; other primitives such as `sendFile` bypass it — exactly one
HTTP-category event is emitted (one durable append, one console write),
carrying the request's method, path, status code and the authenticated
user id (or the literal `anonymous`), with a duration at least as large as
the handler's actual handling time, and the event precedes the body flush
in the effect order. -/
theorem c6_json_emission_logs_one_http_event (req : HttpReq)
    (sc t0 t1 hs he : Nat) (h0 : t0 ≤ hs) (hhe : hs ≤ he) (h1 : he ≤ t1) :
    countFile (httpLoggingRun req t0 [.json sc t1]) = 1
    ∧ countConsole (httpLoggingRun req t0 [.json sc t1]) = 1
    ∧ httpLoggingRun req t0 [.json sc t1] =
        logHttp t1 req.method req.path sc (t1 - t0)
          (req.userId.getD "anonymous") (mkDetails req) ++ [.flushBody]
    ∧ he - hs ≤ t1 - t0
    ∧ containsSub (renderHttp t1 req.method req.path sc (t1 - t0)
        (req.userId.getD "anonymous") (mkDetails req)) req.method
    ∧ containsSub (renderHttp t1 req.method req.path sc (t1 - t0)
        (req.userId.getD "anonymous") (mkDetails req)) req.path
    ∧ containsSub (renderHttp t1 req.method req.path sc (t1 - t0)
        (req.userId.getD "anonymous") (mkDetails req)) (toString sc)
    ∧ containsSub (renderHttp t1 req.method req.path sc (t1 - t0)
        (req.userId.getD "anonymous") (mkDetails req)) (req.userId.getD "anonymous") := by
  refine ⟨?_, ?_, ?_, by omega, ?_, ?_, ?_, ?_⟩
  · simp [httpLoggingRun, wrappedEmit, logHttp, writeToFile, countFile,
      isFileAppend, List.filter]
  · simp [httpLoggingRun, wrappedEmit, logHttp, writeToFile, countConsole,
      isConsoleWrite, List.filter]
  · simp [httpLoggingRun, wrappedEmit]
  all_goals
    simp only [renderHttp, String.append_assoc]
  all_goals
    repeat first
      | exact containsSub_head _ _
      | apply containsSub_append_right

/-- C6 amended witness: `GET /x` answered 404 through `res.json` 12 ms
after middleware entry produces exactly one HTTP append and one console
write, with the 12 ms handling time bounded by the recorded duration. -/
theorem c6_json_emission_logs_one_http_event_witness :
    countFile (httpLoggingRun ⟨"GET", "/x", [], [], none⟩ 0 [.json 404 12]) = 1
    ∧ countConsole (httpLoggingRun ⟨"GET", "/x", [], [], none⟩ 0 [.json 404 12]) = 1
    ∧ 12 - 0 ≤ 12 - 0
    ∧ containsSub (renderHttp 12 "GET" "/x" 404 (12 - 0) "anonymous"
        (mkDetails ⟨"GET", "/x", [], [], none⟩)) (toString 404) := by
  have h := c6_json_emission_logs_one_http_event ⟨"GET", "/x", [], [], none⟩
    404 0 12 0 12 (by decide) (by decide) (by decide)
  exact ⟨h.1, h.2.1, h.2.2.2.1, h.2.2.2.2.2.2.1⟩

end EduFlow
